import Mathlib

/-!
# Shallow embedding of `TileStache/Goodies/PGConfigServer.py`

This file embeds the cache/invalidation core of the PGConfigServer plugin:
the classes `DBLayers` (the layer store with its `seen_layers` cache) and
`PGConfiguration` (the configuration bootstrap).

Modelling conventions:

* The backing database table `tilestache_layer` is a `List Row`, each row
  carrying `key`, `value` (the raw JSON text) and `updated` (the timestamp,
  modelled as `Nat`).  SQL queries filtering by key become `List.filter`;
  `fetchall()[0]` becomes taking `head?` of the filtered list, the empty-result
  `IndexError` becoming the `Err.keyNotFound` error.
* The table `tilestache_config` is a `List ConfigRow` with `name` and `cache`
  columns; `fetchone()` returning `None` (and the subsequent `TypeError` on
  `None[0]`) is modelled as `Err.configNotFound`.
* Parsed layer objects are Python heap objects that are mutated in place
  (`layer.provider.mapnik = None`) and aliased by callers.  We model the heap
  explicitly: `DBState.heap` is a list of `LayerObj`, a `LayerRef` is an index
  into it, and the cache maps keys to refs.  Creating a layer appends to the
  heap; in-place mutation rewrites one heap cell, so aliases (refs handed out
  by earlier calls) observe the change, exactly as in Python.
* The parser collaborator (`json.loads` composed with
  `TileStache.Config._parseConfigLayer(layer_dict, self.config, tmpdir)`)
  is an abstract parameter `parse : String → Option LayerSpec`; `none` models a
  raised parse error (`MalformedLayerDefinition`), and `LayerSpec` carries the
  fields the core reads back: the compiled-style handle `provider.mapnik` and
  the Python truthiness of the resulting object (tested by `if not layer:`).
* The Python `dict` `seen_layers` is an association list with dict semantics:
  assignment replaces in place, `del` removes, lookup takes the (unique) match.
* Instrumentation counters (`parseCount`, `tsQueries`, `fullQueries`,
  `countQueries`) record how often the parser and each kind of SQL query were
  invoked; they model the observable collaborator interactions, not state the
  Python object stores.
-/

/-- A row of the `tilestache_layer` table: `key`, `value` (raw JSON text) and
`updated` timestamp. -/
structure Row where
  key : String
  value : String
  updated : Nat
  deriving Repr, DecidableEq

/-- The `tilestache_layer` table. -/
abbrev Store := List Row

/-- A row of the `tilestache_config` table. -/
structure ConfigRow where
  name : String
  cache : String
  deriving Repr, DecidableEq

/-- What the abstract layer parser returns: the compiled-style handle
(`provider.mapnik`, `none` when absent/cleared) and the Python truthiness of
the produced layer object. -/
structure LayerSpec where
  mapnik : Option Nat
  truthy : Bool
  deriving Repr, DecidableEq

/-- A parsed-layer heap object.  `key` is set by `layer.key = key` in
`fetch_layer_from_db`; `parseId` records which parser invocation produced the
object (so distinct parses are distinguishable); `mapnik` and `truthy` come
from the parser. -/
structure LayerObj where
  key : String
  mapnik : Option Nat
  parseId : Nat
  truthy : Bool
  deriving Repr, DecidableEq

/-- A reference to a layer object: an index into the heap. -/
abbrev LayerRef := Nat

/-- A `seen_layers` cache entry: `dict(layer=layer, updated=raw_result[1])`. -/
structure CacheEntry where
  layer : LayerRef
  updated : Nat
  deriving Repr, DecidableEq

/-- The mutable state of a `DBLayers` object, plus the heap of layer objects it
has created and the collaborator-invocation counters. -/
structure DBState where
  heap : List LayerObj
  seen_layers : List (String × CacheEntry)
  parseCount : Nat
  tsQueries : Nat
  fullQueries : Nat
  countQueries : Nat
  deriving Repr, DecidableEq

/-- The errors the embedded code can raise.  `keyNotFound` models the
`IndexError` raised by `fetchall()[0]` on an empty result set, `malformed`
models a JSON/layer parsing failure, and `configNotFound` models the
`TypeError` raised by `fetchone()[0]` when no configuration row matches. -/
inductive Err where
  | keyNotFound
  | malformed
  | configNotFound
  deriving Repr, DecidableEq

/-- Dict lookup in `seen_layers` (keys are unique, as in a Python `dict`). -/
def assocGet : List (String × CacheEntry) → String → Option CacheEntry
  | [], _ => none
  | p :: t, k => if p.1 = k then some p.2 else assocGet t k

/-- Dict assignment `seen_layers[k] = v`: replace in place if present, append
otherwise. -/
def assocSet : List (String × CacheEntry) → String → CacheEntry →
    List (String × CacheEntry)
  | [], k, v => [(k, v)]
  | p :: t, k, v => if p.1 = k then (k, v) :: t else p :: assocSet t k v

/-- Dict deletion `del seen_layers[k]`. -/
def assocErase : List (String × CacheEntry) → String →
    List (String × CacheEntry)
  | [], _ => []
  | p :: t, k => if p.1 = k then t else p :: assocErase t k

/-- The keyed query over the layer table (SELECT by key). -/
def rowsFor (store : Store) (k : String) : List Row :=
  store.filter (fun r => r.key = k)

/-- Python truthiness of the object a ref points at (`if not layer:`). -/
def truthyAt (heap : List LayerObj) (ref : LayerRef) : Bool :=
  ((heap[ref]?).map LayerObj.truthy).getD false

/-- In-place mutation `layer.provider.mapnik = None` at one heap cell. -/
def clearMapnik : List LayerObj → LayerRef → List LayerObj
  | [], _ => []
  | o :: t, 0 => { o with mapnik := none } :: t
  | o :: t, n + 1 => o :: clearMapnik t n

/-- Embeds `DBLayers.keys`: the `SELECT key FROM tilestache_layer;` query. -/
def DBLayers.keysOf (store : Store) : List String :=
  store.map Row.key

/-- Embeds `DBLayers.fetch_layer_from_db`: run the full-row query, parse the value,
tag the new layer with the key, store `{layer, updated}` in the cache and
return the layer.  The returned state is the state after the call even when an
error is raised (the query still ran), mirroring Python exception semantics. -/
def fetch_layer_from_db (parse : String → Option LayerSpec) (store : Store)
    (key : String) (s : DBState) : Except Err LayerRef × DBState :=
  let s := { s with fullQueries := s.fullQueries + 1 }
  match (rowsFor store key).head? with
  | none => (.error .keyNotFound, s)
  | some r =>
    match parse r.value with
    | none => (.error .malformed, s)
    | some spec =>
      let ref : LayerRef := s.heap.length
      let obj : LayerObj :=
        { key := key, mapnik := spec.mapnik, parseId := s.parseCount,
          truthy := spec.truthy }
      (.ok ref,
        { s with
          heap := s.heap ++ [obj]
          parseCount := s.parseCount + 1
          seen_layers := assocSet s.seen_layers key ⟨ref, r.updated⟩ })

/-- Embeds `DBLayers.check_style_status`: run the timestamp-only query, compare with
the cached entry's `updated`; on mismatch overwrite the cached entry's
`updated` in place and report `true`, else report `false`. -/
def check_style_status (store : Store) (key : String) (s : DBState) :
    Except Err Bool × DBState :=
  let s := { s with tsQueries := s.tsQueries + 1 }
  match (rowsFor store key).head? with
  | none => (.error .keyNotFound, s)
  | some r =>
    match assocGet s.seen_layers key with
    | none => (.error .keyNotFound, s)
    | some entry =>
      if r.updated ≠ entry.updated then
        (.ok true,
          { s with
            seen_layers :=
              assocSet s.seen_layers key { entry with updated := r.updated } })
      else
        (.ok false, s)

/-- Embeds `DBLayers.__getitem__` (the spec's `get`): on a cache hit with a truthy
layer, check staleness; on a stale hit clear the old layer's mapnik handle in
place and refetch; on a hit with a falsy layer evict and refetch; on a miss
fetch for the first time. -/
def getitem (parse : String → Option LayerSpec) (store : Store) (key : String)
    (s : DBState) : Except Err LayerRef × DBState :=
  match assocGet s.seen_layers key with
  | some entry =>
    if ¬ truthyAt s.heap entry.layer then
      let s := { s with seen_layers := assocErase s.seen_layers key }
      fetch_layer_from_db parse store key s
    else
      match check_style_status store key s with
      | (.error e, s1) => (.error e, s1)
      | (.ok true, s1) =>
        let s2 := { s1 with heap := clearMapnik s1.heap entry.layer }
        fetch_layer_from_db parse store key s2
      | (.ok false, s1) => (.ok entry.layer, s1)
  | none => fetch_layer_from_db parse store key s

/-- Embeds `DBLayers.__contains__`: `true` without any query when the key is cached,
otherwise run the `COUNT` query and compare the count with Python `True`
(Python `count == True` is integer equality with `1`). -/
def contains (store : Store) (key : String) (s : DBState) : Bool × DBState :=
  if (assocGet s.seen_layers key).isSome then
    (true, s)
  else
    let s := { s with countQueries := s.countQueries + 1 }
    ((rowsFor store key).length == 1, s)

/-- The empty `DBLayers` state (`self.seen_layers = {}`). -/
def initialDBState : DBState :=
  { heap := [], seen_layers := [], parseCount := 0, tsQueries := 0,
    fullQueries := 0, countQueries := 0 }

/-- Embeds `DBLayers.__init__`: starting from an empty cache, eagerly
`fetch_layer_from_db` every key currently in the store (`for key in
list(self.keys()): self.fetch_layer_from_db(key)`).  A raised error aborts the
loop; the state after the call is still reported so collaborator invocations
remain observable.  `initStep` is one iteration of the constructor's loop. -/
def initStep (parse : String → Option LayerSpec) (store : Store)
    (acc : Except Err Unit × DBState) (k : String) : Except Err Unit × DBState :=
  match acc with
  | (.error e, s) => (.error e, s)
  | (.ok _, s) =>
    match fetch_layer_from_db parse store k s with
    | (.ok _, s') => (.ok (), s')
    | (.error e, s') => (.error e, s')

def dbLayersInit (parse : String → Option LayerSpec) (store : Store) :
    Except Err Unit × DBState :=
  (DBLayers.keysOf store).foldl (initStep parse store) (.ok (), initialDBState)

/-- Embeds `PGConfiguration.get_cache_dict`: look up the configuration row by name and
JSON-decode its `cache` column.  `jsonDec` abstracts `json.loads` on the
`cache` text, returning the decoded dict as an association list. -/
def get_cache_dict (jsonDec : String → Option (List (String × String)))
    (configTable : List ConfigRow) (config_name : String) :
    Except Err (List (String × String)) :=
  match (configTable.filter (fun c => c.name = config_name)).head? with
  | none => .error .configNotFound
  | some row =>
    match jsonDec row.cache with
    | none => .error .malformed
    | some d => .ok d

/-- The result of a successful `PGConfiguration.__init__`: the parsed cache
backend (abstracted to a `Nat` handle), the resolved path, and the `DBLayers`
state built by the eager prefetch. -/
structure PGConfig where
  cache : Nat
  dirpath : String
  layers : DBState
  deriving Repr, DecidableEq

/-- Embeds `PGConfiguration.__init__`: load and decode the configuration row, default
the `loglevel` entry, resolve the working path, parse the cache backend
(`parseCache` abstracts `TileStache.Config._parseConfigCache`; `none` models a
raised `InvalidCacheSpec`), then construct `DBLayers`.  The second component is
the `DBLayers` state the call produced — `initialDBState` when the call failed
before the layer loop ever started, so that layer fetches and parses performed
by the call stay observable even when construction fails. -/
def pgInit (jsonDec : String → Option (List (String × String)))
    (parseCache : List (String × String) → String → Option Nat)
    (parse : String → Option LayerSpec)
    (configTable : List ConfigRow) (store : Store)
    (dirpath loglevel config_name : String) : Except Err PGConfig × DBState :=
  match get_cache_dict jsonDec configTable config_name with
  | .error e => (.error e, initialDBState)
  | .ok d =>
    let d :=
      if (d.map Prod.fst).contains loglevel then d
      else d ++ [("loglevel", loglevel)]
    let path := (((d.find? (fun p => p.1 = "path")).map Prod.snd).getD dirpath)
    match parseCache d path with
    | none => (.error .malformed, initialDBState)
    | some c =>
      match dbLayersInit parse store with
      | (.error e, s) => (.error e, s)
      | (.ok _, s) => (.ok { cache := c, dirpath := path, layers := s }, s)

/-! ## Basic lemmas about the dict and heap operations -/

theorem assocGet_assocSet_self (l : List (String × CacheEntry)) (k : String)
    (v : CacheEntry) : assocGet (assocSet l k v) k = some v := by
  induction l with
  | nil => simp [assocSet, assocGet]
  | cons p t ih =>
    by_cases h : p.1 = k
    · simp [assocSet, assocGet, h]
    · simp [assocSet, assocGet, h, ih]

theorem assocGet_assocSet_ne (l : List (String × CacheEntry)) (k k' : String)
    (v : CacheEntry) (h : k' ≠ k) :
    assocGet (assocSet l k v) k' = assocGet l k' := by
  induction l with
  | nil => simp [assocSet, assocGet, Ne.symm h]
  | cons p t ih =>
    by_cases hp : p.1 = k
    · simp [assocSet, assocGet, hp, Ne.symm h]
    · simp [assocSet, assocGet, hp, ih]

theorem clearMapnik_length (heap : List LayerObj) (ref : Nat) :
    (clearMapnik heap ref).length = heap.length := by
  induction heap generalizing ref with
  | nil => rfl
  | cons o t ih =>
    cases ref with
    | zero => rfl
    | succ n => simp [clearMapnik, ih]

theorem clearMapnik_getElem (heap : List LayerObj) (ref i : Nat) :
    (clearMapnik heap ref)[i]? =
      if i = ref then (heap[i]?).map (fun o => { o with mapnik := none })
      else heap[i]? := by
  induction heap generalizing ref i with
  | nil => simp [clearMapnik]
  | cons o t ih =>
    cases ref with
    | zero =>
      cases i with
      | zero => simp [clearMapnik]
      | succ j => simp [clearMapnik]
    | succ n =>
      cases i with
      | zero => simp [clearMapnik]
      | succ j => simpa [clearMapnik] using ih n j

theorem truthyAt_lt (heap : List LayerObj) (ref : Nat)
    (h : truthyAt heap ref = true) : ref < heap.length := by
  by_contra hlt
  have hle : heap.length ≤ ref := Nat.le_of_not_lt hlt
  rw [truthyAt, List.getElem?_eq_none hle] at h
  simp at h

/-! ## Claim theorems -/

/-- C1: for a key present in the cache (holding a truthy layer, i.e. an actual
`ParsedLayer`), `get` first runs the timestamp query; if the store's `updated`
equals the cached entry's, it returns the cached layer unchanged with no parser
call and no other state change; if it differs, it clears the old layer's
compiled-style handle (`provider.mapnik`), refetches and reparses the row,
replaces the cache entry with the newly parsed layer, returns it, and has
invoked the parser exactly once more than before. -/
theorem getitem_cached_hit_and_stale
    (parse : String → Option LayerSpec) (store : Store) (key : String)
    (s : DBState) (e : CacheEntry) (r : Row)
    (hc : assocGet s.seen_layers key = some e)
    (ht : truthyAt s.heap e.layer = true)
    (hr : (rowsFor store key).head? = some r) :
    (r.updated = e.updated →
      getitem parse store key s =
        (.ok e.layer, { s with tsQueries := s.tsQueries + 1 })) ∧
    (r.updated ≠ e.updated → ∀ spec, parse r.value = some spec →
      (getitem parse store key s).1 = .ok s.heap.length ∧
      (getitem parse store key s).2.parseCount = s.parseCount + 1 ∧
      (getitem parse store key s).2.tsQueries = s.tsQueries + 1 ∧
      (getitem parse store key s).2.heap[s.heap.length]? =
        some { key := key, mapnik := spec.mapnik, parseId := s.parseCount,
               truthy := spec.truthy } ∧
      (getitem parse store key s).2.heap[e.layer]? =
        (s.heap[e.layer]?).map (fun o => { o with mapnik := none }) ∧
      assocGet (getitem parse store key s).2.seen_layers key =
        some ⟨s.heap.length, r.updated⟩) := by
  constructor
  · intro hu
    simp [getitem, check_style_status, hc, ht, hr, hu]
  · intro hu spec hp
    have hlt := truthyAt_lt s.heap e.layer ht
    simp [getitem, check_style_status, fetch_layer_from_db, hc, ht, hr, hu, hp,
      assocGet_assocSet_self, clearMapnik_length, clearMapnik_getElem,
      List.getElem?_append, hlt, Nat.ne_of_lt hlt, (Nat.ne_of_lt hlt).symm]
    have h3 : e.layer < (clearMapnik s.heap e.layer).length := by
      rw [clearMapnik_length]; exact hlt
    have h2 := clearMapnik_getElem s.heap e.layer e.layer
    rw [List.getElem?_eq_getElem h3, List.getElem?_eq_getElem hlt] at h2
    simp at h2
    simp [h2]

/-- Witness for C1: a concrete cached key whose store timestamp is unchanged
is returned from the cache with only the timestamp query performed. -/
theorem getitem_cached_hit_and_stale_witness :
    getitem (fun _ => some ⟨some 7, true⟩) [⟨"roads", "v", 1⟩] "roads"
        { heap := [⟨"roads", some 7, 0, true⟩],
          seen_layers := [("roads", ⟨0, 1⟩)], parseCount := 1, tsQueries := 0,
          fullQueries := 1, countQueries := 0 } =
      (.ok 0,
        { heap := [⟨"roads", some 7, 0, true⟩],
          seen_layers := [("roads", ⟨0, 1⟩)], parseCount := 1, tsQueries := 1,
          fullQueries := 1, countQueries := 0 }) :=
  (getitem_cached_hit_and_stale (fun _ => some ⟨some 7, true⟩)
    [⟨"roads", "v", 1⟩] "roads"
    { heap := [⟨"roads", some 7, 0, true⟩],
      seen_layers := [("roads", ⟨0, 1⟩)], parseCount := 1, tsQueries := 0,
      fullQueries := 1, countQueries := 0 }
    ⟨0, 1⟩ ⟨"roads", "v", 1⟩ rfl rfl rfl).1 rfl

theorem fetch_tsQueries (parse : String → Option LayerSpec) (store : Store)
    (key : String) (s : DBState) :
    (fetch_layer_from_db parse store key s).2.tsQueries = s.tsQueries := by
  cases hh : (rowsFor store key).head? with
  | none => simp [fetch_layer_from_db, hh]
  | some r =>
    cases hp : parse r.value <;> simp [fetch_layer_from_db, hh, hp]

theorem fetch_fullQueries (parse : String → Option LayerSpec) (store : Store)
    (key : String) (s : DBState) :
    (fetch_layer_from_db parse store key s).2.fullQueries =
      s.fullQueries + 1 := by
  cases hh : (rowsFor store key).head? with
  | none => simp [fetch_layer_from_db, hh]
  | some r =>
    cases hp : parse r.value <;> simp [fetch_layer_from_db, hh, hp]

theorem check_heap (store : Store) (key : String) (s : DBState) :
    (check_style_status store key s).2.heap = s.heap := by
  cases hh : (rowsFor store key).head? with
  | none => simp [check_style_status, hh]
  | some r =>
    cases hg : assocGet s.seen_layers key with
    | none => simp [check_style_status, hh, hg]
    | some entry =>
      by_cases hu : r.updated = entry.updated <;>
        simp [check_style_status, hh, hg, hu]

theorem check_tsQueries (store : Store) (key : String) (s : DBState) :
    (check_style_status store key s).2.tsQueries = s.tsQueries + 1 := by
  cases hh : (rowsFor store key).head? with
  | none => simp [check_style_status, hh]
  | some r =>
    cases hg : assocGet s.seen_layers key with
    | none => simp [check_style_status, hh, hg]
    | some entry =>
      by_cases hu : r.updated = entry.updated <;>
        simp [check_style_status, hh, hg, hu]

/-- C3: a `get` on a key that is neither cached nor present in the store fails
with `keyNotFound` (the `IndexError` raised by indexing an empty query result,
an error distinct from the parser error and from the configuration error), and
the only state change is the counted full-row query: the cache map and the
heap are exactly as before. -/
theorem getitem_missing_key (parse : String → Option LayerSpec) (store : Store)
    (key : String) (s : DBState)
    (hc : assocGet s.seen_layers key = none)
    (hr : rowsFor store key = []) :
    getitem parse store key s =
      (.error .keyNotFound, { s with fullQueries := s.fullQueries + 1 }) := by
  simp [getitem, fetch_layer_from_db, hc, hr]

/-- Witness for C3: `get("missing-key")` on an empty store with an empty cache
fails with `keyNotFound` and leaves the cache map unchanged. -/
theorem getitem_missing_key_witness :
    getitem (fun _ => some ⟨some 7, true⟩) [] "missing-key" initialDBState =
      (.error .keyNotFound, { initialDBState with fullQueries := 1 }) :=
  getitem_missing_key (fun _ => some ⟨some 7, true⟩) [] "missing-key"
    initialDBState rfl rfl

/-- C4: constructing `PGConfiguration` with a `config_name` matching no row of
the configuration table fails with `configNotFound`, no usable configuration
object is produced, and the accompanying `DBLayers` state is the initial one:
no layer row was fetched or parsed (all counters are zero, cache and heap are
empty). -/
theorem pgInit_config_not_found
    (jsonDec : String → Option (List (String × String)))
    (parseCache : List (String × String) → String → Option Nat)
    (parse : String → Option LayerSpec)
    (configTable : List ConfigRow) (store : Store)
    (dirpath loglevel config_name : String)
    (h : configTable.filter (fun c => c.name = config_name) = []) :
    pgInit jsonDec parseCache parse configTable store dirpath loglevel
        config_name =
      (.error .configNotFound, initialDBState) := by
  simp [pgInit, get_cache_dict, h]

/-- Witness for C4: a configuration table with only an `"other"` row makes
construction under the default name fail with `configNotFound` and zero layer
activity. -/
theorem pgInit_config_not_found_witness :
    pgInit (fun _ => some []) (fun _ _ => some 0) (fun _ => some ⟨some 7, true⟩)
        [⟨"other", "c"⟩] [⟨"k", "v", 1⟩] "/tmp" "INFO" "default" =
      (.error .configNotFound, initialDBState) :=
  pgInit_config_not_found (fun _ => some []) (fun _ _ => some 0)
    (fun _ => some ⟨some 7, true⟩) [⟨"other", "c"⟩] [⟨"k", "v", 1⟩] "/tmp"
    "INFO" "default" rfl

/-- C10: for a key that is not cached, `contains` compares the store's row
count for the key with Python `True` (integer `1`), so it answers `true`
exactly when that count is `1` — and `false` both when no row and when more
than one row carries the key. -/
theorem contains_uncached_count (store : Store) (key : String) (s : DBState)
    (hc : assocGet s.seen_layers key = none) :
    (contains store key s).1 = true ↔ (rowsFor store key).length = 1 := by
  simp [contains, hc]

/-- Witness for C10: with two rows sharing one key and an empty cache,
`contains` answers by the count-equals-one test. -/
theorem contains_uncached_count_witness :
    (contains [⟨"k", "v", 1⟩, ⟨"k", "w", 2⟩] "k" initialDBState).1 = true ↔
      (rowsFor [⟨"k", "v", 1⟩, ⟨"k", "w", 2⟩] "k").length = 1 :=
  contains_uncached_count [⟨"k", "v", 1⟩, ⟨"k", "w", 2⟩] "k" initialDBState rfl

/-- C7: under the schema's unique-key contract (at most one row per key),
`contains` answers `true` exactly when the key is cached or a row with that
key exists in the store; and on a cached key it performs no store query at
all (the state is entirely unchanged) — so a cached key whose backing row was
deleted is still reported present. -/
theorem contains_cached_or_live (store : Store) (key : String) (s : DBState)
    (huniq : (rowsFor store key).length ≤ 1) :
    ((contains store key s).1 = true ↔
      ((assocGet s.seen_layers key).isSome = true ∨ rowsFor store key ≠ [])) ∧
    ((assocGet s.seen_layers key).isSome = true →
      contains store key s = (true, s)) := by
  constructor
  · cases hco : (assocGet s.seen_layers key).isSome with
    | true => simp [contains, hco]
    | false =>
      simp [contains, hco]
      constructor
      · intro h1 h2
        rw [h2] at h1
        simp at h1
      · intro h1
        have h2 : 0 < (rowsFor store key).length := List.length_pos.mpr h1
        omega
  · intro hco
    simp [contains, hco]

/-- Witness for C7: a cached key whose backing row was deleted (empty store)
is still reported present, with no state change. -/
theorem contains_cached_or_live_witness :
    contains [] "roads"
        { heap := [⟨"roads", some 7, 0, true⟩],
          seen_layers := [("roads", ⟨0, 1⟩)], parseCount := 1, tsQueries := 0,
          fullQueries := 1, countQueries := 0 } =
      (true,
        { heap := [⟨"roads", some 7, 0, true⟩],
          seen_layers := [("roads", ⟨0, 1⟩)], parseCount := 1, tsQueries := 0,
          fullQueries := 1, countQueries := 0 }) :=
  (contains_cached_or_live [] "roads"
    { heap := [⟨"roads", some 7, 0, true⟩],
      seen_layers := [("roads", ⟨0, 1⟩)], parseCount := 1, tsQueries := 0,
      fullQueries := 1, countQueries := 0 } (by decide)).2 rfl

/-- C6 counterexample: a key can be present in the cache with an empty/falsy
layer; `get` on it evicts the entry and refetches with ZERO timestamp-only
queries, not the exactly one the claim demands for every cached key. -/
theorem getitem_falsy_cached_no_ts_query :
    ((assocGet [("k", (⟨0, 5⟩ : CacheEntry))] "k").isSome = true) ∧
    ((getitem (fun _ => some ⟨some 7, true⟩) [⟨"k", "v", 5⟩] "k"
        { heap := [⟨"k", none, 0, false⟩], seen_layers := [("k", ⟨0, 5⟩)],
          parseCount := 1, tsQueries := 0, fullQueries := 1,
          countQueries := 0 }).2.tsQueries = 0) ∧
    ¬ ((getitem (fun _ => some ⟨some 7, true⟩) [⟨"k", "v", 5⟩] "k"
        { heap := [⟨"k", none, 0, false⟩], seen_layers := [("k", ⟨0, 5⟩)],
          parseCount := 1, tsQueries := 0, fullQueries := 1,
          countQueries := 0 }).2.tsQueries = 0 + 1) := by
  refine ⟨rfl, rfl, by decide⟩

/-- C6 corrected: a `get` on a cached key issues exactly one timestamp-only
query when the cached layer is truthy (an actual `ParsedLayer`), regardless of
whether the comparison then triggers a full refetch or the call errors; but a
cached entry holding an empty/falsy layer is evicted and freshly fetched with
no timestamp-only query at all (one full-row query instead). -/
theorem getitem_ts_query_count (parse : String → Option LayerSpec)
    (store : Store) (key : String) (s : DBState) (e : CacheEntry)
    (hc : assocGet s.seen_layers key = some e) :
    (truthyAt s.heap e.layer = true →
      (getitem parse store key s).2.tsQueries = s.tsQueries + 1) ∧
    (truthyAt s.heap e.layer = false →
      (getitem parse store key s).2.tsQueries = s.tsQueries ∧
      (getitem parse store key s).2.fullQueries = s.fullQueries + 1) := by
  constructor
  · intro ht
    rcases hcs : check_style_status store key s with ⟨res, s1⟩
    have h1 : s1.tsQueries = s.tsQueries + 1 := by
      have h2 := check_tsQueries store key s
      rw [hcs] at h2
      exact h2
    cases res with
    | error er => simp [getitem, hc, ht, hcs, h1]
    | ok b =>
      cases b with
      | false => simp [getitem, hc, ht, hcs, h1]
      | true => simp [getitem, hc, ht, hcs, fetch_tsQueries, h1]
  · intro ht
    simp [getitem, hc, ht, fetch_tsQueries, fetch_fullQueries]

/-- Witness for C6 (corrected): on a concrete cached truthy key the call makes
exactly one timestamp query, and on a concrete cached falsy key it makes none
and one full query. -/
theorem getitem_ts_query_count_witness :
    ((getitem (fun _ => some ⟨some 7, true⟩) [⟨"roads", "v", 1⟩] "roads"
        { heap := [⟨"roads", some 7, 0, true⟩],
          seen_layers := [("roads", ⟨0, 1⟩)], parseCount := 1, tsQueries := 0,
          fullQueries := 1, countQueries := 0 }).2.tsQueries = 0 + 1) ∧
    ((getitem (fun _ => some ⟨some 7, true⟩) [⟨"x", "v", 5⟩] "x"
        { heap := [⟨"x", none, 0, false⟩], seen_layers := [("x", ⟨0, 5⟩)],
          parseCount := 1, tsQueries := 4, fullQueries := 1,
          countQueries := 0 }).2.tsQueries = 4 ∧
      (getitem (fun _ => some ⟨some 7, true⟩) [⟨"x", "v", 5⟩] "x"
        { heap := [⟨"x", none, 0, false⟩], seen_layers := [("x", ⟨0, 5⟩)],
          parseCount := 1, tsQueries := 4, fullQueries := 1,
          countQueries := 0 }).2.fullQueries = 1 + 1) :=
  ⟨(getitem_ts_query_count (fun _ => some ⟨some 7, true⟩) [⟨"roads", "v", 1⟩]
      "roads"
      { heap := [⟨"roads", some 7, 0, true⟩],
        seen_layers := [("roads", ⟨0, 1⟩)], parseCount := 1, tsQueries := 0,
        fullQueries := 1, countQueries := 0 } ⟨0, 1⟩ rfl).1 rfl,
    (getitem_ts_query_count (fun _ => some ⟨some 7, true⟩) [⟨"x", "v", 5⟩] "x"
      { heap := [⟨"x", none, 0, false⟩], seen_layers := [("x", ⟨0, 5⟩)],
        parseCount := 1, tsQueries := 4, fullQueries := 1,
        countQueries := 0 } ⟨0, 5⟩ rfl).2 rfl⟩

/-- C2 counterexample: on a cached key whose row changed to an unparseable
value, `get` fails with the parse error yet the cache map is NOT as it was
before the call — the old entry survives with its recorded `updated` already
advanced from `1` to `2` and the old layer's style handle cleared. -/
theorem getitem_failed_reparse_mutates_cache :
    ((getitem (fun _ => none) [⟨"k", "bad", 2⟩] "k"
        { heap := [⟨"k", some 7, 0, true⟩], seen_layers := [("k", ⟨0, 1⟩)],
          parseCount := 1, tsQueries := 0, fullQueries := 1,
          countQueries := 0 }).1 = .error .malformed) ∧
    ((getitem (fun _ => none) [⟨"k", "bad", 2⟩] "k"
        { heap := [⟨"k", some 7, 0, true⟩], seen_layers := [("k", ⟨0, 1⟩)],
          parseCount := 1, tsQueries := 0, fullQueries := 1,
          countQueries := 0 }).2.seen_layers = [("k", ⟨0, 2⟩)]) ∧
    ((getitem (fun _ => none) [⟨"k", "bad", 2⟩] "k"
        { heap := [⟨"k", some 7, 0, true⟩], seen_layers := [("k", ⟨0, 1⟩)],
          parseCount := 1, tsQueries := 0, fullQueries := 1,
          countQueries := 0 }).2.seen_layers ≠ [("k", ⟨0, 1⟩)]) ∧
    ((getitem (fun _ => none) [⟨"k", "bad", 2⟩] "k"
        { heap := [⟨"k", some 7, 0, true⟩], seen_layers := [("k", ⟨0, 1⟩)],
          parseCount := 1, tsQueries := 0, fullQueries := 1,
          countQueries := 0 }).2.heap = [⟨"k", none, 0, true⟩]) := by
  refine ⟨rfl, rfl, by decide, rfl⟩

/-- C2 corrected: a failed `get` on a key absent from the cache leaves the
cache map and the heap exactly as before; but on the stale-refetch path a
failed reparse leaves the old entry behind with its recorded `updated`
advanced to the store's new timestamp and the old layer's compiled-style
handle cleared in place. -/
theorem getitem_failure_cache_effects (parse : String → Option LayerSpec)
    (store : Store) (key : String) (s : DBState) :
    (assocGet s.seen_layers key = none →
      ∀ er, (getitem parse store key s).1 = .error er →
        (getitem parse store key s).2.seen_layers = s.seen_layers ∧
        (getitem parse store key s).2.heap = s.heap) ∧
    (∀ e r, assocGet s.seen_layers key = some e →
      truthyAt s.heap e.layer = true →
      (rowsFor store key).head? = some r →
      r.updated ≠ e.updated → parse r.value = none →
      getitem parse store key s =
        (.error .malformed,
          { s with
            heap := clearMapnik s.heap e.layer
            seen_layers :=
              assocSet s.seen_layers key { e with updated := r.updated }
            tsQueries := s.tsQueries + 1
            fullQueries := s.fullQueries + 1 })) := by
  constructor
  · intro hc er he
    cases hh : (rowsFor store key).head? with
    | none => simp [getitem, fetch_layer_from_db, hc, hh]
    | some r =>
      cases hp : parse r.value with
      | none => simp [getitem, fetch_layer_from_db, hc, hh, hp]
      | some spec =>
        simp [getitem, fetch_layer_from_db, hc, hh, hp] at he
  · intro e r hc ht hr hu hp
    simp [getitem, check_style_status, fetch_layer_from_db, hc, ht, hr, hu, hp]

/-- Witness for C2 (corrected): both branches at concrete inputs — a missing
key leaves cache and heap untouched, and a concrete stale failed reparse
produces exactly the described partially-mutated state. -/
theorem getitem_failure_cache_effects_witness :
    ((getitem (fun _ => none) [] "missing" initialDBState).2.seen_layers =
        initialDBState.seen_layers ∧
      (getitem (fun _ => none) [] "missing" initialDBState).2.heap =
        initialDBState.heap) ∧
    getitem (fun _ => none) [⟨"k", "bad", 2⟩] "k"
        { heap := [⟨"k", some 7, 0, true⟩], seen_layers := [("k", ⟨0, 1⟩)],
          parseCount := 1, tsQueries := 0, fullQueries := 1,
          countQueries := 0 } =
      (.error .malformed,
        { heap := [⟨"k", none, 0, true⟩], seen_layers := [("k", ⟨0, 2⟩)],
          parseCount := 1, tsQueries := 1, fullQueries := 2,
          countQueries := 0 }) :=
  ⟨(getitem_failure_cache_effects (fun _ => none) [] "missing"
      initialDBState).1 rfl .keyNotFound rfl,
    (getitem_failure_cache_effects (fun _ => none) [⟨"k", "bad", 2⟩] "k"
      { heap := [⟨"k", some 7, 0, true⟩], seen_layers := [("k", ⟨0, 1⟩)],
        parseCount := 1, tsQueries := 0, fullQueries := 1,
        countQueries := 0 }).2 ⟨0, 1⟩ ⟨"k", "bad", 2⟩ rfl rfl rfl
      (by decide) rfl⟩

theorem fetch_heap_prefix (parse : String → Option LayerSpec) (store : Store)
    (key : String) (s : DBState) (i : Nat) (hi : i < s.heap.length) :
    (fetch_layer_from_db parse store key s).2.heap[i]? = s.heap[i]? := by
  cases hh : (rowsFor store key).head? with
  | none => simp [fetch_layer_from_db, hh]
  | some r =>
    cases hp : parse r.value with
    | none => simp [fetch_layer_from_db, hh, hp]
    | some spec => simp [fetch_layer_from_db, hh, hp, List.getElem?_append, hi]

/-- C8 counterexample: a stale `get` mutates a previously created (and
previously returned) `ParsedLayer` object in place — heap object `0` had its
`provider.mapnik` handle `some 7` before the call and `none` after it — a
caller-visible change beyond the cache map. -/
theorem getitem_mutates_returned_layer :
    ((getitem (fun _ => some ⟨some 9, true⟩) [⟨"k", "v2", 2⟩] "k"
        { heap := [⟨"k", some 7, 0, true⟩], seen_layers := [("k", ⟨0, 1⟩)],
          parseCount := 1, tsQueries := 0, fullQueries := 1,
          countQueries := 0 }).1 = .ok 1) ∧
    (({ heap := [⟨"k", some 7, 0, true⟩], seen_layers := [("k", ⟨0, 1⟩)],
        parseCount := 1, tsQueries := 0, fullQueries := 1,
        countQueries := 0 } : DBState).heap[0]? =
      some ⟨"k", some 7, 0, true⟩) ∧
    ((getitem (fun _ => some ⟨some 9, true⟩) [⟨"k", "v2", 2⟩] "k"
        { heap := [⟨"k", some 7, 0, true⟩], seen_layers := [("k", ⟨0, 1⟩)],
          parseCount := 1, tsQueries := 0, fullQueries := 1,
          countQueries := 0 }).2.heap[0]? = some ⟨"k", none, 0, true⟩) := by
  refine ⟨rfl, rfl, rfl⟩

/-- C8 corrected: besides the cache map, the only caller-visible state a `get`
may change is the compiled-style handle of the layer object held by the
(stale) cache entry for the requested key, which is cleared in place; every
other previously existing layer object — in particular every layer previously
returned for a different key — is unchanged, field for field. -/
theorem getitem_frame (parse : String → Option LayerSpec) (store : Store)
    (key : String) (s : DBState) (i : Nat) (hi : i < s.heap.length) :
    (getitem parse store key s).2.heap[i]? = s.heap[i]? ∨
    (∃ e, assocGet s.seen_layers key = some e ∧ i = e.layer ∧
      (getitem parse store key s).2.heap[i]? =
        (s.heap[i]?).map (fun o => { o with mapnik := none })) := by
  cases hc : assocGet s.seen_layers key with
  | none =>
    left
    simp only [getitem, hc]
    exact fetch_heap_prefix parse store key s i hi
  | some e =>
    cases ht : truthyAt s.heap e.layer with
    | false =>
      left
      simp only [getitem, hc, ht, Bool.false_eq_true, not_false_eq_true,
        if_true]
      exact fetch_heap_prefix parse store key
        { s with seen_layers := assocErase s.seen_layers key } i hi
    | true =>
      rcases hcs : check_style_status store key s with ⟨res, s1⟩
      have hh : s1.heap = s.heap := by
        have h2 := check_heap store key s
        rw [hcs] at h2
        exact h2
      cases res with
      | error er =>
        left
        simp [getitem, hc, ht, hcs, hh]
      | ok b =>
        cases b with
        | false =>
          left
          simp [getitem, hc, ht, hcs, hh]
        | true =>
          by_cases hie : i = e.layer
          · right
            refine ⟨e, rfl, hie, ?_⟩
            simp [getitem, hc, ht, hcs, clearMapnik_length, hh, hie, hi]
            have h4 := fetch_heap_prefix parse store key
              { s1 with heap := clearMapnik s.heap e.layer } e.layer
              (by simp [clearMapnik_length]; omega)
            rw [h4]
            simp [clearMapnik_getElem]
          · left
            simp [getitem, hc, ht, hcs, clearMapnik_length, hh, hie, hi]
            have h4 := fetch_heap_prefix parse store key
              { s1 with heap := clearMapnik s.heap e.layer } i
              (by simp [clearMapnik_length]; omega)
            rw [h4]
            have h5 := clearMapnik_getElem s.heap e.layer i
            rw [if_neg hie, List.getElem?_eq_getElem hi] at h5
            exact h5

/-- Witness for C8 (corrected): in a concrete two-object heap, a stale `get`
of the key cached at object `1` leaves object `0` untouched and rewrites only
object `1`'s mapnik handle. -/
theorem getitem_frame_witness :
    ((getitem (fun _ => some ⟨some 9, true⟩) [⟨"b", "v2", 2⟩] "b"
        { heap := [⟨"a", some 5, 0, true⟩, ⟨"b", some 7, 1, true⟩],
          seen_layers := [("a", ⟨0, 1⟩), ("b", ⟨1, 1⟩)], parseCount := 2,
          tsQueries := 0, fullQueries := 2, countQueries := 0 }).2.heap[0]? =
      ({ heap := [⟨"a", some 5, 0, true⟩, ⟨"b", some 7, 1, true⟩],
          seen_layers := [("a", ⟨0, 1⟩), ("b", ⟨1, 1⟩)], parseCount := 2,
          tsQueries := 0, fullQueries := 2,
          countQueries := 0 } : DBState).heap[0]? ∨
      (∃ e, assocGet [("a", ⟨0, 1⟩), ("b", ⟨1, 1⟩)] "b" = some e ∧
        0 = e.layer ∧
        (getitem (fun _ => some ⟨some 9, true⟩) [⟨"b", "v2", 2⟩] "b"
          { heap := [⟨"a", some 5, 0, true⟩, ⟨"b", some 7, 1, true⟩],
            seen_layers := [("a", ⟨0, 1⟩), ("b", ⟨1, 1⟩)], parseCount := 2,
            tsQueries := 0, fullQueries := 2,
            countQueries := 0 }).2.heap[0]? =
          (({ heap := [⟨"a", some 5, 0, true⟩, ⟨"b", some 7, 1, true⟩],
              seen_layers := [("a", ⟨0, 1⟩), ("b", ⟨1, 1⟩)], parseCount := 2,
              tsQueries := 0, fullQueries := 2,
              countQueries := 0 } : DBState).heap[0]?).map
            (fun o => { o with mapnik := none }))) :=
  getitem_frame (fun _ => some ⟨some 9, true⟩) [⟨"b", "v2", 2⟩] "b"
    { heap := [⟨"a", some 5, 0, true⟩, ⟨"b", some 7, 1, true⟩],
      seen_layers := [("a", ⟨0, 1⟩), ("b", ⟨1, 1⟩)], parseCount := 2,
      tsQueries := 0, fullQueries := 2, countQueries := 0 } 0 (by decide)

theorem fetch_ok_cached (parse : String → Option LayerSpec) (store : Store)
    (key : String) (s : DBState) (out : LayerRef)
    (h : (fetch_layer_from_db parse store key s).1 = .ok out) :
    (assocGet (fetch_layer_from_db parse store key s).2.seen_layers
      key).isSome = true := by
  cases hh : (rowsFor store key).head? with
  | none => simp [fetch_layer_from_db, hh] at h
  | some r =>
    cases hp : parse r.value with
    | none => simp [fetch_layer_from_db, hh, hp] at h
    | some spec =>
      simp [fetch_layer_from_db, hh, hp, assocGet_assocSet_self]

theorem check_ok_seen (store : Store) (key : String) (s : DBState) (b : Bool)
    (s1 : DBState) (h : check_style_status store key s = (.ok b, s1)) :
    (assocGet s1.seen_layers key).isSome = true := by
  cases hh : (rowsFor store key).head? with
  | none => simp [check_style_status, hh] at h
  | some r =>
    cases hg : assocGet s.seen_layers key with
    | none => simp [check_style_status, hh, hg] at h
    | some entry =>
      by_cases hu : r.updated = entry.updated
      · simp [check_style_status, hh, hg, hu] at h
        rw [← h.2, hg]
        rfl
      · simp [check_style_status, hh, hg, hu] at h
        rw [← h.2]
        simp [assocGet_assocSet_self]

/-- C9: `contains(k)` answers `true` immediately after any successful `get(k)`
(evaluated in the state that `get` produced, over any store), and answers
`false` for a key that has no row in the store and was never cached. -/
theorem contains_after_get (parse : String → Option LayerSpec) (store : Store)
    (key : String) (s : DBState) :
    (∀ out, (getitem parse store key s).1 = .ok out →
      (contains store key (getitem parse store key s).2).1 = true) ∧
    (assocGet s.seen_layers key = none → rowsFor store key = [] →
      (contains store key s).1 = false) := by
  constructor
  · intro out hok
    suffices hs : (assocGet (getitem parse store key s).2.seen_layers
        key).isSome = true by
      simp [contains, hs]
    cases hc : assocGet s.seen_layers key with
    | none =>
      simp only [getitem, hc] at hok ⊢
      exact fetch_ok_cached parse store key s out hok
    | some e =>
      cases ht : truthyAt s.heap e.layer with
      | false =>
        simp only [getitem, hc, ht, Bool.false_eq_true, not_false_eq_true,
          if_true] at hok ⊢
        exact fetch_ok_cached parse store key
          { s with seen_layers := assocErase s.seen_layers key } out hok
      | true =>
        rcases hcs : check_style_status store key s with ⟨res, s1⟩
        cases res with
        | error er => simp [getitem, hc, ht, hcs] at hok
        | ok b =>
          cases b with
          | false =>
            simp [getitem, hc, ht, hcs]
            exact check_ok_seen store key s false s1 hcs
          | true =>
            simp [getitem, hc, ht, hcs] at hok ⊢
            exact fetch_ok_cached parse store key
              { s1 with heap := clearMapnik s1.heap e.layer } out hok
  · intro hc hr
    simp [contains, hc, hr]

/-- Witness for C9: after a concrete successful `get("roads")` from an empty
cache, `contains("roads")` is `true`; and `contains("x")` on an empty store
with an empty cache is `false`. -/
theorem contains_after_get_witness :
    ((contains [⟨"roads", "v", 1⟩] "roads"
        (getitem (fun _ => some ⟨some 7, true⟩) [⟨"roads", "v", 1⟩] "roads"
          initialDBState).2).1 = true) ∧
    ((contains [] "x" initialDBState).1 = false) :=
  ⟨(contains_after_get (fun _ => some ⟨some 7, true⟩) [⟨"roads", "v", 1⟩]
      "roads" initialDBState).1 0 rfl,
    (contains_after_get (fun _ => some ⟨some 7, true⟩) [] "x"
      initialDBState).2 rfl rfl⟩

theorem foldl_initStep_error (parse : String → Option LayerSpec)
    (store : Store) (ks : List String) (e : Err) (s : DBState) :
    ks.foldl (initStep parse store) (.error e, s) = (.error e, s) := by
  induction ks with
  | nil => rfl
  | cons k t ih => simpa [initStep] using ih

theorem assocGet_assocSet_isSome (l : List (String × CacheEntry))
    (k k' : String) (v : CacheEntry) :
    (assocGet (assocSet l k v) k').isSome = true ↔
      (k' = k ∨ (assocGet l k').isSome = true) := by
  by_cases h : k' = k
  · subst h
    simp [assocGet_assocSet_self]
  · simp [assocGet_assocSet_ne l k k' v h, h]

theorem fetch_ok_seen_eq (parse : String → Option LayerSpec) (store : Store)
    (key : String) (s : DBState) (out : LayerRef) (s' : DBState)
    (h : fetch_layer_from_db parse store key s = (.ok out, s')) :
    ∃ u, s'.seen_layers = assocSet s.seen_layers key u := by
  cases hh : (rowsFor store key).head? with
  | none => simp [fetch_layer_from_db, hh] at h
  | some r =>
    cases hp : parse r.value with
    | none => simp [fetch_layer_from_db, hh, hp] at h
    | some spec =>
      refine ⟨⟨s.heap.length, r.updated⟩, ?_⟩
      simp [fetch_layer_from_db, hh, hp] at h
      rw [← h.2]

theorem foldl_initStep_seen (parse : String → Option LayerSpec)
    (store : Store) (ks : List String) (s : DBState)
    (h : (ks.foldl (initStep parse store) (.ok (), s)).1 = .ok ())
    (k : String) :
    (assocGet (ks.foldl (initStep parse store)
        (.ok (), s)).2.seen_layers k).isSome = true ↔
      (k ∈ ks ∨ (assocGet s.seen_layers k).isSome = true) := by
  induction ks generalizing s with
  | nil => simp
  | cons a t ih =>
    rcases hf : fetch_layer_from_db parse store a s with ⟨res, s'⟩
    cases res with
    | error er =>
      exfalso
      rw [List.foldl_cons,
        show initStep parse store (.ok (), s) a = (.error er, s') from by
          simp [initStep, hf],
        foldl_initStep_error] at h
      simp at h
    | ok out =>
      rw [List.foldl_cons,
        show initStep parse store (.ok (), s) a = (.ok (), s') from by
          simp [initStep, hf]] at h ⊢
      obtain ⟨u, hu⟩ := fetch_ok_seen_eq parse store a s out s' hf
      rw [ih s' h, hu, assocGet_assocSet_isSome]
      simp [List.mem_cons]
      tauto

/-- C5 counterexample: constructing `DBLayers` over a store holding a single
`"roads"` row already creates a cache entry for `"roads"` — the entry exists
before any `get("roads")` was ever called, because the constructor eagerly
fetches every key it enumerates. -/
theorem dbLayersInit_prewarms :
    ((dbLayersInit (fun _ => some ⟨some 7, true⟩) [⟨"roads", "v", 1⟩]).1 =
      .ok ()) ∧
    (assocGet (dbLayersInit (fun _ => some ⟨some 7, true⟩)
        [⟨"roads", "v", 1⟩]).2.seen_layers "roads" = some ⟨0, 1⟩) :=
  ⟨rfl, rfl⟩

/-- C5 corrected: the `DBLayers` constructor eagerly creates a cache entry for
exactly the keys present in the backing store at construction time (when
construction succeeds) — so after a successful construction a key has an
entry if and only if it was a store key; keys absent from the store get no
entry until their first lookup.  Entries are still replaced on detected
staleness and are never proactively expired. -/
theorem dbLayersInit_seen (parse : String → Option LayerSpec) (store : Store)
    (h : (dbLayersInit parse store).1 = .ok ()) (k : String) :
    (assocGet (dbLayersInit parse store).2.seen_layers k).isSome = true ↔
      k ∈ DBLayers.keysOf store := by
  rw [dbLayersInit] at h ⊢
  rw [foldl_initStep_seen parse store _ initialDBState h k]
  simp [initialDBState, assocGet]

/-- Witness for C5 (corrected): a concrete successful construction over a
one-row store yields an entry for `"roads"`, matching the store's key list. -/
theorem dbLayersInit_seen_witness :
    ((dbLayersInit (fun _ => some ⟨some 8, true⟩) [⟨"roads", "w", 3⟩]).1 =
      .ok ()) ∧
    ((assocGet (dbLayersInit (fun _ => some ⟨some 8, true⟩)
        [⟨"roads", "w", 3⟩]).2.seen_layers "roads").isSome = true ↔
      "roads" ∈ DBLayers.keysOf [⟨"roads", "w", 3⟩]) :=
  ⟨rfl, dbLayersInit_seen (fun _ => some ⟨some 8, true⟩) [⟨"roads", "w", 3⟩]
    rfl "roads"⟩
